import Mathlib

/-!
Verification of the tool hierarchy in `src/src/module3/file_f.py`.

The Python module defines four classes: `BaseTool`, `CustomTool` (extends
`BaseTool`), `AdvancedTool` (extends `BaseTool`) and `PluginTool` (extends
`AdvancedTool`).  Each class is embedded as a Lean structure holding all of
its (inherited and own) instance attributes, and each method as a state
transformer returning the method's result together with the post state.
Python dictionaries are embedded as ordered association lists over a small
`Value` type, and Python string formatting of a dictionary is embedded by an
explicit rendering function.
-/

namespace ToolHierarchy

/-- Values that appear in the dictionaries built by the tool hierarchy:
strings, booleans, integers and lists of strings. -/
inductive Value where
  | str (s : String)
  | bool (b : Bool)
  | int (n : Int)
  | strList (l : List String)
deriving DecidableEq, Repr

/-- A Python dictionary as used by the hierarchy: an insertion-ordered
association list with string keys. -/
abbrev Dict := List (String × Value)

/-- Assignment `d[k] = v` on a Python dictionary: if the key is present its
value is replaced in place, otherwise the pair is appended at the end. -/
def dictSet (d : Dict) (k : String) (v : Value) : Dict :=
  if d.any (fun kv => kv.1 == k) then
    d.map (fun kv => if kv.1 == k then (k, v) else kv)
  else
    d ++ [(k, v)]

/-- Membership of a key in a Python dictionary. -/
def dictHasKey (d : Dict) (k : String) : Bool :=
  d.any (fun kv => kv.1 == k)

/-- Lookup of a key in a Python dictionary. -/
def dictGet (d : Dict) (k : String) : Option Value :=
  (d.find? (fun kv => kv.1 == k)).map Prod.snd

/-- The single quote character, used by Python when rendering a string
inside a dictionary. -/
def sq : String := String.singleton (Char.ofNat 39)

/-- Python rendering (via `str`) of a `Value`, as it appears inside the
textual form of a dictionary. -/
def pyReprValue : Value → String
  | Value.str s => sq ++ s ++ sq
  | Value.bool b => if b then "True" else "False"
  | Value.int n => toString n
  | Value.strList l =>
      "[" ++ String.intercalate ", " (l.map (fun s => sq ++ s ++ sq)) ++ "]"

/-- Python rendering (via `str`) of a dictionary, e.g. `{'mode': 'fast'}`. -/
def pyReprDict (d : Dict) : String :=
  "\x7b" ++
    String.intercalate ", "
      (d.map (fun kv => sq ++ kv.1 ++ sq ++ ": " ++ pyReprValue kv.2)) ++
  "\x7d"

/-- The Python idiom `x or []` applied to an optional list argument: `None`
and the empty list are falsy and yield a fresh empty list. -/
def orEmptyList (x : Option (List String)) : List String :=
  match x with
  | Option.none => []
  | Option.some l => if l.isEmpty then [] else l

/-- The Python idiom `x or {}` applied to an optional dictionary argument:
`None` and the empty dictionary are falsy and yield a fresh empty dict. -/
def orEmptyDict (x : Option Dict) : Dict :=
  match x with
  | Option.none => []
  | Option.some d => if d.isEmpty then [] else d

/-- State of a `BaseTool` instance: the attributes set by
`BaseTool.__init__`. -/
structure BaseTool where
  name : String
  version : String
  enabled : Bool
deriving DecidableEq, Repr

/-- Embeds `BaseTool.__init__(name, version, enabled)` with every argument
given explicitly. -/
def BaseTool.init (name version : String) (enabled : Bool) : BaseTool :=
  { name := name, version := version, enabled := enabled }

/-- Construction of a `BaseTool` passing only `name`: the defaults of the
signature `__init__(self, name, version="1.0", enabled=True)` apply. -/
def BaseTool.ofName (name : String) : BaseTool :=
  BaseTool.init name "1.0" true

/-- Embeds `BaseTool.run`: returns the confirmation string and leaves the
state unchanged (the `print` progress notice is not modelled). -/
def BaseTool.run (t : BaseTool) : String × BaseTool :=
  ("Base tool " ++ t.name ++ " executed.", t)

/-- Embeds `BaseTool.get_info`: returns the metadata dictionary and leaves
the state unchanged. -/
def BaseTool.get_info (t : BaseTool) : Dict × BaseTool :=
  ([("name", Value.str t.name),
    ("version", Value.str t.version),
    ("enabled", Value.bool t.enabled)], t)

/-- State of a `CustomTool` instance: the inherited `BaseTool` attributes
plus `custom_config`. -/
structure CustomTool where
  name : String
  version : String
  enabled : Bool
  custom_config : Dict
deriving DecidableEq, Repr

/-- The `BaseTool` part of a `CustomTool` instance (the view the inherited
methods operate on). -/
def CustomTool.toBaseTool (t : CustomTool) : BaseTool :=
  { name := t.name, version := t.version, enabled := t.enabled }

/-- Writes back the `BaseTool` part of a `CustomTool` after an inherited
method ran on it. -/
def CustomTool.withBaseTool (t : CustomTool) (b : BaseTool) : CustomTool :=
  { name := b.name, version := b.version, enabled := b.enabled,
    custom_config := t.custom_config }

/-- Embeds `CustomTool.__init__(name, version, enabled, custom_config)`:
calls the base initializer and sets `custom_config = custom_config or {}`. -/
def CustomTool.init (name version : String) (enabled : Bool)
    (custom_config : Option Dict) : CustomTool :=
  { name := name, version := version, enabled := enabled,
    custom_config := orEmptyDict custom_config }

/-- Construction of a `CustomTool` passing only `name`: the defaults of
`__init__(self, name, version="1.0", enabled=True, custom_config=None)`
apply. -/
def CustomTool.ofName (name : String) : CustomTool :=
  CustomTool.init name "1.0" true Option.none

/-- Construction of a `CustomTool` passing `name` and `custom_config`
while leaving `version` and `enabled` at their defaults. -/
def CustomTool.ofNameConfig (name : String) (custom_config : Dict) : CustomTool :=
  CustomTool.init name "1.0" true (Option.some custom_config)

/-- Embeds `CustomTool.run`: returns the string embedding the tool name and
the rendering of `custom_config`; the state is unchanged. -/
def CustomTool.run (t : CustomTool) : String × CustomTool :=
  ("Custom tool " ++ t.name ++ " executed with config: " ++
      pyReprDict t.custom_config, t)

/-- Embeds the inherited `get_info` as called on a `CustomTool` instance:
the base method runs on the base part of the state. -/
def CustomTool.get_info (t : CustomTool) : Dict × CustomTool :=
  let r := BaseTool.get_info t.toBaseTool
  (r.1, t.withBaseTool r.2)

/-- State of an `AdvancedTool` instance: the inherited `BaseTool`
attributes plus `log_file`, `timeout` and `execution_count`. -/
structure AdvancedTool where
  name : String
  version : String
  enabled : Bool
  log_file : Option String
  timeout : Int
  execution_count : Int
deriving DecidableEq, Repr

/-- The `BaseTool` part of an `AdvancedTool` instance. -/
def AdvancedTool.toBaseTool (t : AdvancedTool) : BaseTool :=
  { name := t.name, version := t.version, enabled := t.enabled }

/-- Writes back the `BaseTool` part of an `AdvancedTool` after an inherited
method ran on it. -/
def AdvancedTool.withBaseTool (t : AdvancedTool) (b : BaseTool) : AdvancedTool :=
  { name := b.name, version := b.version, enabled := b.enabled,
    log_file := t.log_file, timeout := t.timeout,
    execution_count := t.execution_count }

/-- Embeds `AdvancedTool.__init__(name, version, enabled, log_file,
timeout)`: calls the base initializer, stores `log_file` and `timeout`,
and sets `execution_count = 0`. -/
def AdvancedTool.init (name version : String) (enabled : Bool)
    (log_file : Option String) (timeout : Int) : AdvancedTool :=
  { name := name, version := version, enabled := enabled,
    log_file := log_file, timeout := timeout, execution_count := 0 }

/-- Construction of an `AdvancedTool` passing only `name`: the defaults of
`__init__(self, name, version="2.0", enabled=True, log_file=None,
timeout=30)` apply. -/
def AdvancedTool.ofName (name : String) : AdvancedTool :=
  AdvancedTool.init name "2.0" true Option.none 30

/-- Embeds `AdvancedTool.run`: increments `execution_count` and returns the
result dictionary built from the updated state. -/
def AdvancedTool.run (t : AdvancedTool) : Dict × AdvancedTool :=
  let t1 : AdvancedTool := { t with execution_count := t.execution_count + 1 }
  ([("status", Value.str "success"),
    ("tool_name", Value.str t1.name),
    ("execution_count", Value.int t1.execution_count),
    ("timeout", Value.int t1.timeout)], t1)

/-- Embeds `AdvancedTool.get_stats`: returns the statistics dictionary and
leaves the state unchanged. -/
def AdvancedTool.get_stats (t : AdvancedTool) : Dict × AdvancedTool :=
  ([("name", Value.str t.name),
    ("execution_count", Value.int t.execution_count),
    ("timeout", Value.int t.timeout)], t)

/-- Embeds the inherited `get_info` as called on an `AdvancedTool`
instance. -/
def AdvancedTool.get_info (t : AdvancedTool) : Dict × AdvancedTool :=
  let r := BaseTool.get_info t.toBaseTool
  (r.1, t.withBaseTool r.2)

/-- Iterated `run` on an `AdvancedTool`: `t.runs n` is the state after `n`
successive `run()` calls starting from `t`. -/
def AdvancedTool.runs (t : AdvancedTool) : Nat → AdvancedTool
  | 0 => t
  | Nat.succ n => ((AdvancedTool.runs t n).run).2

/-- State of a `PluginTool` instance: the inherited `AdvancedTool`
attributes plus `plugins`. -/
structure PluginTool where
  name : String
  version : String
  enabled : Bool
  log_file : Option String
  timeout : Int
  execution_count : Int
  plugins : List String
deriving DecidableEq, Repr

/-- The `AdvancedTool` part of a `PluginTool` instance (the view the
inherited methods, and `super().run()`, operate on). -/
def PluginTool.toAdvancedTool (t : PluginTool) : AdvancedTool :=
  { name := t.name, version := t.version, enabled := t.enabled,
    log_file := t.log_file, timeout := t.timeout,
    execution_count := t.execution_count }

/-- Writes back the `AdvancedTool` part of a `PluginTool` after an
inherited method ran on it. -/
def PluginTool.withAdvancedTool (t : PluginTool) (a : AdvancedTool) : PluginTool :=
  { name := a.name, version := a.version, enabled := a.enabled,
    log_file := a.log_file, timeout := a.timeout,
    execution_count := a.execution_count, plugins := t.plugins }

/-- Embeds `PluginTool.__init__(name, version, enabled, log_file, timeout,
plugins)`: calls the `AdvancedTool` initializer and sets
`plugins = plugins or []`. -/
def PluginTool.init (name version : String) (enabled : Bool)
    (log_file : Option String) (timeout : Int)
    (plugins : Option (List String)) : PluginTool :=
  { name := name, version := version, enabled := enabled,
    log_file := log_file, timeout := timeout, execution_count := 0,
    plugins := orEmptyList plugins }

/-- Construction of a `PluginTool` passing only `name`: the defaults of
`__init__(self, name, version="3.0", enabled=True, log_file=None,
timeout=30, plugins=None)` apply. -/
def PluginTool.ofName (name : String) : PluginTool :=
  PluginTool.init name "3.0" true Option.none 30 Option.none

/-- Embeds `PluginTool.add_plugin(plugin_name)`: appends the name and
returns `True` when it is not yet present, otherwise changes nothing and
returns `False`. -/
def PluginTool.add_plugin (t : PluginTool) (plugin_name : String) :
    Bool × PluginTool :=
  if plugin_name ∉ t.plugins then
    (true, { t with plugins := t.plugins ++ [plugin_name] })
  else
    (false, t)

/-- Embeds `PluginTool.run`: calls `super().run()` on the `AdvancedTool`
part of the state (which performs the single increment of
`execution_count`), then augments the returned dictionary with the
`plugins` and `plugin_count` entries. -/
def PluginTool.run (t : PluginTool) : Dict × PluginTool :=
  let r := AdvancedTool.run t.toAdvancedTool
  let t1 := t.withAdvancedTool r.2
  let d1 := dictSet r.1 "plugins" (Value.strList t1.plugins)
  let d2 := dictSet d1 "plugin_count" (Value.int (t1.plugins.length : Int))
  (d2, t1)

/-- Embeds the inherited `get_stats` as called on a `PluginTool`
instance. -/
def PluginTool.get_stats (t : PluginTool) : Dict × PluginTool :=
  let r := AdvancedTool.get_stats t.toAdvancedTool
  (r.1, t.withAdvancedTool r.2)

/-- Embeds the inherited `get_info` as called on a `PluginTool`
instance. -/
def PluginTool.get_info (t : PluginTool) : Dict × PluginTool :=
  let r := BaseTool.get_info (t.toAdvancedTool).toBaseTool
  (r.1, t.withAdvancedTool ((t.toAdvancedTool).withBaseTool r.2))

/-- Iterated `run` on a `PluginTool`. -/
def PluginTool.runs (t : PluginTool) : Nat → PluginTool
  | 0 => t
  | Nat.succ n => ((PluginTool.runs t n).run).2

/-- One mutating operation on a `PluginTool`: an `add_plugin` call or a
`run` call. -/
inductive PluginOp where
  | addPlugin (plugin_name : String)
  | runOp
deriving DecidableEq, Repr

/-- Applies one operation to a `PluginTool` state, discarding the returned
value. -/
def PluginTool.applyOp (t : PluginTool) : PluginOp → PluginTool
  | PluginOp.addPlugin p => (t.add_plugin p).2
  | PluginOp.runOp => (t.run).2

/-- Applies a sequence of operations to a `PluginTool` state, in order. -/
def PluginTool.applyOps (t : PluginTool) (ops : List PluginOp) : PluginTool :=
  ops.foldl PluginTool.applyOp t

/-- Replaces only the `enabled` flag of a `BaseTool`. -/
def BaseTool.setEnabled (t : BaseTool) (b : Bool) : BaseTool :=
  { t with enabled := b }

/-- Replaces only the `enabled` flag of a `CustomTool`. -/
def CustomTool.setEnabled (t : CustomTool) (b : Bool) : CustomTool :=
  { t with enabled := b }

/-- Replaces only the `enabled` flag of an `AdvancedTool`. -/
def AdvancedTool.setEnabled (t : AdvancedTool) (b : Bool) : AdvancedTool :=
  { t with enabled := b }

/-- Replaces only the `enabled` flag of a `PluginTool`. -/
def PluginTool.setEnabled (t : PluginTool) (b : Bool) : PluginTool :=
  { t with enabled := b }

/-! Helper lemmas shared by the claim theorems. -/

/-- A single `run` on an `AdvancedTool` increments `execution_count` by one. -/
theorem AdvancedTool.advanced_run_count_succ (t : AdvancedTool) :
    ((AdvancedTool.run t).2).execution_count = t.execution_count + 1 := rfl

/-- A single `run` on a `PluginTool` increments `execution_count` by one. -/
theorem PluginTool.plugin_run_count_succ (t : PluginTool) :
    ((PluginTool.run t).2).execution_count = t.execution_count + 1 := rfl

/-- Iterating `run` on an `AdvancedTool` adds the iteration count to
`execution_count`. -/
theorem AdvancedTool.advanced_runs_count (t : AdvancedTool) (n : Nat) :
    (t.runs n).execution_count = t.execution_count + (n : Int) := by
  induction n with
  | zero => simp [AdvancedTool.runs]
  | succ n ih =>
      show ((t.runs n).run).2.execution_count = _
      rw [AdvancedTool.advanced_run_count_succ, ih]
      push_cast
      ring

/-- Iterating `run` on a `PluginTool` adds the iteration count to
`execution_count`. -/
theorem PluginTool.plugin_runs_count (t : PluginTool) (n : Nat) :
    (t.runs n).execution_count = t.execution_count + (n : Int) := by
  induction n with
  | zero => simp [PluginTool.runs]
  | succ n ih =>
      show ((t.runs n).run).2.execution_count = _
      rw [PluginTool.plugin_run_count_succ, ih]
      push_cast
      ring

/-- No single operation on a `PluginTool` decreases `execution_count`. -/
theorem PluginTool.applyOp_execution_count_le (t : PluginTool) (op : PluginOp) :
    t.execution_count ≤ (t.applyOp op).execution_count := by
  cases op with
  | addPlugin p =>
      show t.execution_count ≤ ((t.add_plugin p).2).execution_count
      unfold PluginTool.add_plugin
      split <;> simp
  | runOp =>
      show t.execution_count ≤ ((PluginTool.run t).2).execution_count
      rw [PluginTool.plugin_run_count_succ]
      omega

/-- No sequence of operations on a `PluginTool` decreases
`execution_count`. -/
theorem PluginTool.applyOps_execution_count_le (t : PluginTool)
    (ops : List PluginOp) :
    t.execution_count ≤ (t.applyOps ops).execution_count := by
  induction ops generalizing t with
  | nil => exact le_refl _
  | cons op ops ih =>
      exact le_trans (PluginTool.applyOp_execution_count_le t op)
        (ih (t.applyOp op))

/-- Every single operation only ever extends `plugins` at the end. -/
theorem PluginTool.applyOp_plugins_extends (t : PluginTool) (op : PluginOp) :
    ∃ l, (t.applyOp op).plugins = t.plugins ++ l := by
  cases op with
  | addPlugin p =>
      show ∃ l, ((t.add_plugin p).2).plugins = t.plugins ++ l
      unfold PluginTool.add_plugin
      split
      · exact ⟨[p], rfl⟩
      · exact ⟨[], by simp⟩
  | runOp =>
      exact ⟨[], by
        simp [PluginTool.applyOp, PluginTool.run, PluginTool.withAdvancedTool]⟩

/-- Every operation sequence only ever extends `plugins` at the end. -/
theorem PluginTool.applyOps_plugins_extends (t : PluginTool)
    (ops : List PluginOp) :
    ∃ l, (t.applyOps ops).plugins = t.plugins ++ l := by
  induction ops generalizing t with
  | nil => exact ⟨[], by simp [PluginTool.applyOps]⟩
  | cons op ops ih =>
      obtain ⟨l₁, h₁⟩ := PluginTool.applyOp_plugins_extends t op
      obtain ⟨l₂, h₂⟩ := ih (t.applyOp op)
      exact ⟨l₁ ++ l₂, by
        show ((t.applyOp op).applyOps ops).plugins = _
        rw [h₂, h₁, List.append_assoc]⟩

/-- A single operation preserves freedom from duplicates of `plugins`. -/
theorem PluginTool.applyOp_plugins_nodup (t : PluginTool) (op : PluginOp)
    (h : t.plugins.Nodup) : (t.applyOp op).plugins.Nodup := by
  cases op with
  | addPlugin p =>
      show ((t.add_plugin p).2).plugins.Nodup
      unfold PluginTool.add_plugin
      by_cases hp : p ∉ t.plugins
      · simp only [if_pos hp]
        simp [List.nodup_append, h, hp]
      · simp only [if_neg hp]
        exact h
  | runOp =>
      show ((PluginTool.run t).2).plugins.Nodup
      simpa [PluginTool.run, PluginTool.withAdvancedTool] using h

/-! Claim theorems. -/

/-- C1 fails as stated: `PluginTool.__init__` accepts an initial `plugins`
argument without removing duplicates, so the instance constructed with
`plugins=["a", "a"]` has a duplicate entry in `plugins` immediately after
construction (after the empty sequence of calls). -/
theorem c1_counterexample :
    ¬ ((PluginTool.init "x" "3.0" true Option.none 30
          (Option.some ["a", "a"])).applyOps []).plugins.Nodup := by
  decide

/-- C1 (amended): for every PluginTool whose `plugins` list is
duplicate-free — in particular every instance constructed without an
initial `plugins` argument — every sequence of `add_plugin` and `run`
calls keeps `plugins` duplicate-free and only ever extends it at the end
(insertion order preserved), and neither `run` nor `get_stats` nor
`get_info` changes `plugins`: `add_plugin` is the only mutator. -/
theorem c1_plugins_nodup_invariant (t : PluginTool) (h : t.plugins.Nodup)
    (ops : List PluginOp) :
    (t.applyOps ops).plugins.Nodup ∧
    (∃ l, (t.applyOps ops).plugins = t.plugins ++ l) ∧
    ((PluginTool.run t).2).plugins = t.plugins ∧
    ((PluginTool.get_stats t).2).plugins = t.plugins ∧
    ((PluginTool.get_info t).2).plugins = t.plugins := by
  refine ⟨?_, PluginTool.applyOps_plugins_extends t ops, rfl, rfl, rfl⟩
  induction ops generalizing t with
  | nil => exact h
  | cons op ops ih =>
      exact ih (t.applyOp op) (PluginTool.applyOp_plugins_nodup t op h)

/-- Witness for C1: the fresh instance `PluginTool("svc")` has a
duplicate-free plugin list, and the invariant holds for it across the call
sequence `add_plugin("auth"); run()`. -/
theorem c1_witness :
    (PluginTool.ofName "svc").plugins.Nodup ∧
    (((PluginTool.ofName "svc").applyOps
        [PluginOp.addPlugin "auth", PluginOp.runOp]).plugins.Nodup ∧
      (∃ l, ((PluginTool.ofName "svc").applyOps
          [PluginOp.addPlugin "auth", PluginOp.runOp]).plugins =
          (PluginTool.ofName "svc").plugins ++ l) ∧
      ((PluginTool.run (PluginTool.ofName "svc")).2).plugins =
        (PluginTool.ofName "svc").plugins ∧
      ((PluginTool.get_stats (PluginTool.ofName "svc")).2).plugins =
        (PluginTool.ofName "svc").plugins ∧
      ((PluginTool.get_info (PluginTool.ofName "svc")).2).plugins =
        (PluginTool.ofName "svc").plugins) :=
  ⟨by decide,
    c1_plugins_nodup_invariant (PluginTool.ofName "svc") (by decide)
      [PluginOp.addPlugin "auth", PluginOp.runOp]⟩

/-- C2: every `run` call on an `AdvancedTool` or `PluginTool` increments
`execution_count` by exactly one; for `PluginTool` the single increment is
the one performed by the inherited `AdvancedTool.run`; `execution_count`
never decreases under any sequence of operations; and `n` `run` calls
starting from a freshly constructed instance (any constructor arguments)
yield `execution_count = n`. -/
theorem c2_execution_count :
    (∀ t : AdvancedTool,
      ((AdvancedTool.run t).2).execution_count = t.execution_count + 1) ∧
    (∀ t : PluginTool,
      ((PluginTool.run t).2).execution_count = t.execution_count + 1) ∧
    (∀ t : PluginTool,
      ((PluginTool.run t).2).execution_count =
        ((AdvancedTool.run t.toAdvancedTool).2).execution_count) ∧
    (∀ (t : PluginTool) (ops : List PluginOp),
      t.execution_count ≤ (t.applyOps ops).execution_count) ∧
    (∀ (name version : String) (enabled : Bool) (log_file : Option String)
        (timeout : Int) (n : Nat),
      ((AdvancedTool.init name version enabled log_file timeout).runs
          n).execution_count = (n : Int)) ∧
    (∀ (name version : String) (enabled : Bool) (log_file : Option String)
        (timeout : Int) (plugins : Option (List String)) (n : Nat),
      ((PluginTool.init name version enabled log_file timeout plugins).runs
          n).execution_count = (n : Int)) := by
  refine ⟨fun _ => rfl, fun _ => rfl, fun _ => rfl,
    fun t ops => PluginTool.applyOps_execution_count_le t ops, ?_, ?_⟩
  · intro name version enabled log_file timeout n
    rw [AdvancedTool.advanced_runs_count]
    show (0 : Int) + (n : Int) = (n : Int)
    ring
  · intro name version enabled log_file timeout plugins n
    rw [PluginTool.plugin_runs_count]
    show (0 : Int) + (n : Int) = (n : Int)
    ring

/-- C3 fails as stated: a `CustomTool` constructed without a `version`
argument gets version "1.0", which is not distinct from the default of its
parent variant `BaseTool`. -/
theorem c3_counterexample :
    ¬ ((CustomTool.ofName "fmt").version ≠ (BaseTool.ofName "fmt").version) := by
  decide

/-- C3 (amended): constructions omitting the `version` argument give a
`BaseTool` version "1.0", an `AdvancedTool` version "2.0", a `PluginTool`
version "3.0", and a `CustomTool` the same default "1.0" as its parent
`BaseTool` (the `CustomTool` default is not distinct). -/
theorem c3_default_versions :
    (∀ name : String, (BaseTool.ofName name).version = "1.0") ∧
    (∀ name : String, (AdvancedTool.ofName name).version = "2.0") ∧
    (∀ name : String, (PluginTool.ofName name).version = "3.0") ∧
    (∀ name : String, (CustomTool.ofName name).version = "1.0") ∧
    (CustomTool.ofName "c").version = (BaseTool.ofName "b").version :=
  ⟨fun _ => rfl, fun _ => rfl, fun _ => rfl, fun _ => rfl, rfl⟩

/-- C4: `PluginTool.run` always returns the dictionary with the four keys
produced by `AdvancedTool.run` (`status` = "success", `tool_name`,
`execution_count`, `timeout`) followed by `plugins` (the current plugin
list) and `plugin_count` (its length); in particular the spec scenario
`PluginTool("svc")`, `add_plugin("auth")` → true, then `run()` yields
`execution_count = 1`, `plugins = ["auth"]`, `plugin_count = 1`. -/
theorem c4_plugin_run_result :
    (∀ t : PluginTool, (PluginTool.run t).1 =
      [("status", Value.str "success"),
       ("tool_name", Value.str t.name),
       ("execution_count", Value.int (t.execution_count + 1)),
       ("timeout", Value.int t.timeout),
       ("plugins", Value.strList t.plugins),
       ("plugin_count", Value.int (t.plugins.length : Int))]) ∧
    ((PluginTool.ofName "svc").add_plugin "auth").1 = true ∧
    ((((PluginTool.ofName "svc").add_plugin "auth").2).run).1 =
      [("status", Value.str "success"),
       ("tool_name", Value.str "svc"),
       ("execution_count", Value.int 1),
       ("timeout", Value.int 30),
       ("plugins", Value.strList ["auth"]),
       ("plugin_count", Value.int 1)] :=
  ⟨fun _ => rfl, by decide, by decide⟩

/-- C5: `add_plugin` never fails: it returns true and appends the name at
the end when it is not yet present, and returns false leaving `plugins`
unchanged when it is; the spec scenario on an empty `PluginTool` follows. -/
theorem c5_add_plugin_protocol :
    (∀ (t : PluginTool) (p : String),
      t.add_plugin p =
        if p ∈ t.plugins then (false, t)
        else (true, { t with plugins := t.plugins ++ [p] })) ∧
    ((PluginTool.ofName "t").add_plugin "x").1 = true ∧
    (((PluginTool.ofName "t").add_plugin "x").2).plugins = ["x"] ∧
    ((((PluginTool.ofName "t").add_plugin "x").2).add_plugin "x").1 = false ∧
    (((((PluginTool.ofName "t").add_plugin "x").2).add_plugin "x").2).plugins
      = ["x"] := by
  refine ⟨?_, by decide, by decide, by decide, by decide⟩
  intro t p
  unfold PluginTool.add_plugin
  by_cases hp : p ∈ t.plugins
  · simp [hp]
  · simp [hp]

/-- C6: on every variant, `get_info` returns exactly the three entries
`name`, `version`, `enabled` with the current field values, leaves the
state unchanged, and agrees with the inherited `BaseTool.get_info` on the
base part of the state (it is not overridden), exposing none of
`custom_config`, `timeout`, `log_file`, `execution_count`, `plugins`. -/
theorem c6_get_info_shape :
    (∀ t : BaseTool, BaseTool.get_info t =
      ([("name", Value.str t.name), ("version", Value.str t.version),
        ("enabled", Value.bool t.enabled)], t)) ∧
    (∀ t : CustomTool, CustomTool.get_info t =
      ([("name", Value.str t.name), ("version", Value.str t.version),
        ("enabled", Value.bool t.enabled)], t)) ∧
    (∀ t : AdvancedTool, AdvancedTool.get_info t =
      ([("name", Value.str t.name), ("version", Value.str t.version),
        ("enabled", Value.bool t.enabled)], t)) ∧
    (∀ t : PluginTool, PluginTool.get_info t =
      ([("name", Value.str t.name), ("version", Value.str t.version),
        ("enabled", Value.bool t.enabled)], t)) ∧
    (∀ t : CustomTool,
      (CustomTool.get_info t).1 = (BaseTool.get_info t.toBaseTool).1) ∧
    (∀ t : AdvancedTool,
      (AdvancedTool.get_info t).1 = (BaseTool.get_info t.toBaseTool).1) ∧
    (∀ t : PluginTool,
      (PluginTool.get_info t).1 =
        (BaseTool.get_info (t.toAdvancedTool).toBaseTool).1) :=
  ⟨fun _ => rfl, fun _ => rfl, fun _ => rfl, fun _ => rfl,
   fun _ => rfl, fun _ => rfl, fun _ => rfl⟩

/-- C7: `CustomTool.run` returns (leaving the state unchanged) the string
"Custom tool {name} executed with config: {custom_config}", which contains
the tool name and the rendering of `custom_config` as substrings; a
missing or falsy `custom_config` argument yields an empty mapping; the
spec scenario with name "fmt" and config {mode: fast} follows. -/
theorem c7_custom_run_string :
    (∀ t : CustomTool,
      (CustomTool.run t).1 =
        "Custom tool " ++ t.name ++ " executed with config: " ++
          pyReprDict t.custom_config ∧
      (CustomTool.run t).2 = t ∧
      (∃ pre post, (CustomTool.run t).1 = pre ++ t.name ++ post) ∧
      (∃ pre, (CustomTool.run t).1 = pre ++ pyReprDict t.custom_config)) ∧
    (∀ (name version : String) (enabled : Bool),
      (CustomTool.init name version enabled Option.none).custom_config = []) ∧
    (∀ (name version : String) (enabled : Bool),
      (CustomTool.init name version enabled
        (Option.some [])).custom_config = []) ∧
    (∃ pre post,
      ((CustomTool.ofNameConfig "fmt" [("mode", Value.str "fast")]).run).1 =
        pre ++ "fmt" ++ post) ∧
    (∃ pre,
      ((CustomTool.ofNameConfig "fmt" [("mode", Value.str "fast")]).run).1 =
        pre ++ pyReprDict [("mode", Value.str "fast")]) := by
  refine ⟨?_, fun _ _ _ => rfl, fun _ _ _ => rfl,
    ⟨"Custom tool ",
      " executed with config: " ++
        pyReprDict [("mode", Value.str "fast")], ?_⟩,
    ⟨"Custom tool fmt executed with config: ", rfl⟩⟩
  · intro t
    refine ⟨rfl, rfl,
      ⟨"Custom tool ",
        " executed with config: " ++ pyReprDict t.custom_config, ?_⟩,
      ⟨"Custom tool " ++ t.name ++ " executed with config: ", rfl⟩⟩
    show "Custom tool " ++ t.name ++ " executed with config: " ++
        pyReprDict t.custom_config = _
    simp [String.append_assoc]
  · decide

/-- C8: `get_stats` returns exactly the entries `name`, `execution_count`,
`timeout` with the current field values and leaves the state unchanged, on
both `AdvancedTool` and (by inheritance) `PluginTool`; on a freshly
constructed `AdvancedTool` it reports `execution_count = 0`. -/
theorem c8_get_stats_shape :
    (∀ t : AdvancedTool, AdvancedTool.get_stats t =
      ([("name", Value.str t.name),
        ("execution_count", Value.int t.execution_count),
        ("timeout", Value.int t.timeout)], t)) ∧
    (∀ t : PluginTool, PluginTool.get_stats t =
      ([("name", Value.str t.name),
        ("execution_count", Value.int t.execution_count),
        ("timeout", Value.int t.timeout)], t)) ∧
    (∀ (name version : String) (enabled : Bool) (log_file : Option String)
        (timeout : Int),
      ((AdvancedTool.init name version enabled log_file timeout).get_stats).1
        = [("name", Value.str name), ("execution_count", Value.int 0),
           ("timeout", Value.int timeout)]) :=
  ⟨fun _ => rfl, fun _ => rfl, fun _ _ _ _ _ => rfl⟩

/-- C9: `run` changes no field other than `execution_count`: on `BaseTool`
and `CustomTool` it leaves the whole state unchanged, and on
`AdvancedTool` and `PluginTool` the post state is exactly the pre state
with `execution_count` incremented. -/
theorem c9_run_frame :
    (∀ t : BaseTool, (BaseTool.run t).2 = t) ∧
    (∀ t : CustomTool, (CustomTool.run t).2 = t) ∧
    (∀ t : AdvancedTool, (AdvancedTool.run t).2 =
      { t with execution_count := t.execution_count + 1 }) ∧
    (∀ t : PluginTool, (PluginTool.run t).2 =
      { t with execution_count := t.execution_count + 1 }) :=
  ⟨fun _ => rfl, fun _ => rfl, fun _ => rfl, fun _ => rfl⟩

/-- C10: the `enabled` flag never influences behaviour: on every variant,
instances differing only in `enabled` produce identical results from
`run`, `get_stats` and `add_plugin`, and post states again differing only
in `enabled`; the flag is observable only as the `enabled` entry of
`get_info`. -/
theorem c10_enabled_noninterference :
    (∀ (t : BaseTool) (a b : Bool),
      ((t.setEnabled a).run).1 = ((t.setEnabled b).run).1 ∧
      ((t.setEnabled a).run).2 = (((t.setEnabled b).run).2).setEnabled a) ∧
    (∀ (t : CustomTool) (a b : Bool),
      ((t.setEnabled a).run).1 = ((t.setEnabled b).run).1 ∧
      ((t.setEnabled a).run).2 = (((t.setEnabled b).run).2).setEnabled a) ∧
    (∀ (t : AdvancedTool) (a b : Bool),
      ((t.setEnabled a).run).1 = ((t.setEnabled b).run).1 ∧
      ((t.setEnabled a).run).2 = (((t.setEnabled b).run).2).setEnabled a ∧
      ((t.setEnabled a).get_stats).1 = ((t.setEnabled b).get_stats).1 ∧
      ((t.setEnabled a).get_stats).2 =
        (((t.setEnabled b).get_stats).2).setEnabled a) ∧
    (∀ (t : PluginTool) (a b : Bool) (p : String),
      ((t.setEnabled a).run).1 = ((t.setEnabled b).run).1 ∧
      ((t.setEnabled a).run).2 = (((t.setEnabled b).run).2).setEnabled a ∧
      ((t.setEnabled a).get_stats).1 = ((t.setEnabled b).get_stats).1 ∧
      ((t.setEnabled a).get_stats).2 =
        (((t.setEnabled b).get_stats).2).setEnabled a ∧
      ((t.setEnabled a).add_plugin p).1 = ((t.setEnabled b).add_plugin p).1 ∧
      ((t.setEnabled a).add_plugin p).2 =
        (((t.setEnabled b).add_plugin p).2).setEnabled a) ∧
    (∀ (t : BaseTool) (a : Bool),
      dictGet ((t.setEnabled a).get_info).1 "enabled" =
        Option.some (Value.bool a)) := by
  refine ⟨fun _ _ _ => ⟨rfl, rfl⟩, fun _ _ _ => ⟨rfl, rfl⟩,
    fun _ _ _ => ⟨rfl, rfl, rfl, rfl⟩, ?_, fun _ _ => rfl⟩
  intro t a b p
  refine ⟨rfl, rfl, rfl, rfl, ?_, ?_⟩ <;>
    · unfold PluginTool.add_plugin PluginTool.setEnabled
      by_cases hp : p ∈ t.plugins <;> simp [hp]

end ToolHierarchy
